import Mathlib

/-!
Verification of the text-to-SQL-to-insight orchestration loop of
`src/ai_agent.py` (repository `food_security_analysis`).

The module under study has four functions:

* `get_athena_schema()` — returns a hardcoded schema/policy text;
* `generate_sql(question)` — builds a prompt from the schema and the question,
  calls the completion model, extracts the text of the reply and strips
  markdown code fences and surrounding whitespace;
* `explain_results(question, df)` — serializes the result table to CSV,
  builds a second prompt and calls the completion model, returning its text
  verbatim;
* `ask_data_agent(question)` — the orchestrator: synthesize SQL, run it via
  `wr.athena.read_sql_query`, short-circuit on an empty table, otherwise
  summarize; one `try/except` around the whole body converts every raised
  exception `e` into the triple `(None, None, "Error: " + str(e))`.

The two external collaborators (the Bedrock completion service together with
its JSON response decoding, and the Athena query engine) are modelled as an
explicit environment of `Except`-valued functions: `Except.error m` stands
for a raised Python exception whose `str` is `m` (this includes service
errors, malformed JSON bodies and missing `content` fields on the model
boundary, and engine errors on the query boundary), and `Except.ok`
stands for a normal return.  Python strings are modelled as `String`
(= a list of `Char`), `str.strip` and `str.replace` are re-implemented
character by character below, and a pandas dataframe is modelled as a header
plus a list of rows, with `df.empty` true exactly when there are no rows
(a SQL result set with at least one row always has at least one column, so
the column axis of `pandas.DataFrame.empty` cannot fire here).
-/

/-- Boolean test that the first character list occurs at the head of the
second one.  This models the fixed-position substring comparison performed
by Python's `str.replace` scan (and is also used to state prefix facts about
results, keeping the development self-contained). -/
def startsWithChars : List Char → List Char → Bool
  | [], _ => true
  | _ :: _, [] => false
  | a :: as, b :: bs => a == b && startsWithChars as bs

/-- Fuel-indexed left-to-right scan of Python's `str.replace(old, new)` on
character lists: at each position, if `old` matches here (and is nonempty,
as every `old` used by the source is), emit `new` and skip `old.length`
characters, else keep one character and continue.  The fuel is only there to
make the recursion structural; it is always instantiated with the length of
the scanned list, which suffices. -/
def replaceFuel (old new : List Char) : Nat → List Char → List Char
  | _, [] => []
  | 0, c :: cs => c :: cs
  | fuel + 1, c :: cs =>
    if startsWithChars old (c :: cs) = true ∧ old ≠ [] then
      new ++ replaceFuel old new fuel (cs.drop (old.length - 1))
    else
      c :: replaceFuel old new fuel cs

/-- Python `str.replace(old, new)` on character lists. -/
def replaceList (old new l : List Char) : List Char :=
  replaceFuel old new l.length l

/-- Python `s.replace(old, new)` on strings. -/
def pyReplace (s old new : String) : String :=
  (replaceList old.data new.data s.data).asString

/-- Python `s.strip()` on character lists: drop whitespace from both ends. -/
def stripChars (l : List Char) : List Char :=
  ((l.dropWhile Char.isWhitespace).reverse.dropWhile Char.isWhitespace).reverse

/-- Python `s.strip()` on strings. -/
def pyStrip (s : String) : String :=
  (stripChars s.data).asString

/-- The post-processing applied by `generate_sql` to the model's text
(`src/ai_agent.py`, lines 100 and 103):
`text.strip().replace("```sql", "").replace("```", "").strip()`. -/
def sanitize (text : String) : String :=
  pyStrip (pyReplace (pyReplace (pyStrip text) "```sql" "") "```" "")

/-- The backtick character, i.e. the character the markdown fences are
made of. -/
def btChar : Char := Char.ofNat 96

/-- The character list of the bare fence marker (three backticks). -/
def fenceChars : List Char := [btChar, btChar, btChar]

/-- The character list of the sql-tagged fence marker. -/
def tagChars : List Char := [btChar, btChar, btChar, 's', 'q', 'l']

/-- `DATABASE` from `src/ai_agent.py`, line 8. -/
def DATABASE : String := "food_security_db"

/-- `get_athena_schema` from `src/ai_agent.py`, lines 10 to 71: returns a
hardcoded text blob (schema plus query-writing rules).  The Python function
takes no arguments; a `Unit` argument keeps the call-shape visible so that
determinism across calls is a statable property. -/
def get_athena_schema (_ : Unit) : String :=
  "\n    You are a Data Analyst for the UN. You have access to an AWS Athena Database.\n    \n    Table: v_agent\n    \n    Columns & Definitions:\n    -- Identifiers --\n    - iso3 (string): 3-letter Country Code (e.g., \x27USA\x27, \x27IND\x27)\n    - area (string): Country Name\n    - year (int): 2015 to 2024\n    \n    -- Risk & Climate --\n    - composite_risk_score (float): 0-100 Index (Higher is Worse/Risky)\n    - heat_stress_days (int): Count of days > 35°C\n    - max_dry_streak_days (int): Longest consecutive run of days with <1mm rain\n    - total_precip_mm (float): Total annual rainfall\n    - planting_start_doy (int): Day of Year when planting season starts\n    \n    -- Nutrition & Supply --\n    - kcal_cap_total_day (float): Daily calories available per person\n    - production_per_capita (float): Domestic food production per person\n    - total_production (float): Total crop output in tonnes\n    \n    -- Economics & Trade --\n    - food_inflation_index (float): CPI for Food (Base 2015=100)\n    - gdp_per_capita (float): Gross Domestic Product per person (USD)\n    - economic_power_score (float): Normalized economic strength\n    - import_tonnes (float): Total food imports\n    - export_tonnes (float): Total food exports\n    - net_trade_balance (float): Exports minus Imports\n    - import_dependency_ratio (float): Percentage of food supply imported\n    \n    -- Structural --\n    - total_agri_land_ha (float): Total agricultural land in hectares\n    - fertilizer_per_ha (float): Nitrogen input intensity\n    - val_added_agri_share_gdp (float): % of GDP coming from Agriculture\n    \n    -- FAO Framework Scores (0-100, Higher is Better) --\n    - score_availability: Supply sufficiency\n    - score_access: Economic capacity to buy food\n    - score_utilization: Health/Water infrastructure\n    - score_stability: Resilience to shocks\n    - score_agency: Political voice and equality\n    \n    -- Demographics --\n    - total_population (float): Total people\n    - population_density (float): People per sq km\n    - median_age (float): Average age of population\n    - population_growth_rate (float): Annual % growth\n    - sex_ratio (float): Males per 100 Females\n    \n    Rules:\n    1. Always use table \x27v_agent\x27.\n    2. Ignore nulls using \x27WHERE column IS NOT NULL\x27 when doing calculations.\n    3. If asked for \x27Riskiest\x27, order by composite_risk_score DESC.\n    4. If asked for \x27Resilient\x27, order by score_stability DESC.\n    5. Return ONLY the valid Presto/Athena SQL query. Do not use Markdown blocks.\n    "

/-- The prompt built by `generate_sql` (`src/ai_agent.py`, lines 77 to 85):
the f-string interpolating the schema text and the user question. -/
def sqlPrompt (question : String) : String :=
  "\n    " ++ get_athena_schema () ++
  "\n    \n    User Question: \"" ++ question ++
  "\"\n    \n    Write a valid Presto/Athena SQL query to answer this. \n    Limit results to 10 unless specified.\n    "

/-- A pandas dataframe as returned by `wr.athena.read_sql_query`: column
names plus rows of (already rendered) cell texts. -/
structure DataFrame where
  header : List String
  rows : List (List String)

/-- `df.empty` for a query-result dataframe: no rows. -/
def DataFrame.empty (df : DataFrame) : Bool :=
  df.rows.isEmpty

/-- Comma-join of one CSV record. -/
def joinComma : List String → String
  | [] => ""
  | [x] => x
  | x :: y :: xs => x ++ "," ++ joinComma (y :: xs)

/-- `df.to_csv(index=False)`: header line then one line per row, each line
terminated by a newline. -/
def DataFrame.toCsv (df : DataFrame) : String :=
  joinComma df.header ++ "\n" ++
    String.join (df.rows.map (fun r => joinComma r ++ "\n"))

/-- The external collaborators of the module.  `invokeModel` maps a prompt
to the text extracted from the completion response
(`json.loads(response.get(\x27body\x27).read())[\x27content\x27][0][\x27text\x27]`);
`Except.error m` stands for any exception raised on that path (service
error, malformed JSON, missing field), with `str(e) = m`.  `readSqlQuery`
models `wr.athena.read_sql_query(sql, database=...)` the same way. -/
structure AgentEnv where
  invokeModel : String → Except String String
  readSqlQuery : String → String → Except String DataFrame

/-- `generate_sql` from `src/ai_agent.py`, lines 73 to 104: build the
prompt, call the model, extract the text and clean it up.  An exception
anywhere on the model path propagates to the caller (there is no handler in
this function), which the `Except` value records. -/
def generate_sql (env : AgentEnv) (question : String) : Except String String :=
  match env.invokeModel (sqlPrompt question) with
  | .error e => .error e
  | .ok text => .ok (sanitize text)

/-- The prompt built by `explain_results` (`src/ai_agent.py`, lines
112 to 118). -/
def summaryPromptOf (question csv : String) : String :=
  "\n    User Question: \"" ++ question ++
  "\"\n    Data Retrieved:\n    " ++ csv ++
  "\n    \n    Summarize this data in 2 concise sentences. Highlight the key outlier.\n    "

/-- `explain_results` from `src/ai_agent.py`, lines 106 to 131: serialize
the dataframe, call the model, return its text verbatim. -/
def explain_results (env : AgentEnv) (question : String) (df : DataFrame) :
    Except String String :=
  env.invokeModel (summaryPromptOf question df.toCsv)

/-- `ask_data_agent` from `src/ai_agent.py`, lines 133 to 153: the
orchestrator.  The `try/except Exception` block catches every exception `e`
raised by the three phases and returns `(None, None, "Error: " + str(e))`;
the empty-table check short-circuits before the summarizer. -/
def ask_data_agent (env : AgentEnv) (question : String) :
    Option String × Option DataFrame × String :=
  match generate_sql env question with
  | .error e => (none, none, "Error: " ++ e)
  | .ok sql =>
    match env.readSqlQuery sql DATABASE with
    | .error e => (none, none, "Error: " ++ e)
    | .ok df =>
      if df.empty then
        (some sql, some df, "No data found for that query.")
      else
        match explain_results env question df with
        | .error e => (none, none, "Error: " ++ e)
        | .ok summary => (some sql, some df, summary)

/-- `ask_data_agent` instrumented with a call counter for the summarizer:
identical control flow, second component counts how many times
`explain_results` is invoked on this run (0 or 1).  This makes the temporal
claim about the empty-result path statable. -/
def askAgentCounted (env : AgentEnv) (question : String) :
    (Option String × Option DataFrame × String) × Nat :=
  match generate_sql env question with
  | .error e => ((none, none, "Error: " ++ e), 0)
  | .ok sql =>
    match env.readSqlQuery sql DATABASE with
    | .error e => ((none, none, "Error: " ++ e), 0)
    | .ok df =>
      if df.empty then
        ((some sql, some df, "No data found for that query."), 0)
      else
        match explain_results env question df with
        | .error e => ((none, none, "Error: " ++ e), 1)
        | .ok summary => ((some sql, some df, summary), 1)

/-- A one-row result table used to exercise the success paths. -/
def df1 : DataFrame :=
  { header := ["iso3", "food_inflation_index"], rows := [["EGY", "180.2"]] }

/-- A zero-row result table used to exercise the empty-result path. -/
def dfEmpty : DataFrame :=
  { header := ["iso3"], rows := [] }

/-- Environment where the completion service is down: every model call
raises. -/
def envGenFail : AgentEnv :=
  { invokeModel := fun _ => .error "model down"
    readSqlQuery := fun _ _ => .error "unreachable" }

/-- Environment where synthesis succeeds and the engine raises. -/
def envExecFail : AgentEnv :=
  { invokeModel := fun _ => .ok "SELECT 1"
    readSqlQuery := fun _ _ => .error "SYNTAX_ERROR: line 1:8" }

/-- Environment where synthesis succeeds and the query matches no rows. -/
def envEmpty : AgentEnv :=
  { invokeModel := fun _ => .ok "SELECT 1"
    readSqlQuery := fun _ _ => .ok dfEmpty }

/-- Phase discriminator used by the concrete test environments below: the
synthesis prompt starts with a blank indented line followed by the schema
text (whose own first character is a newline), so its first six characters
are newline, four spaces, newline; the summarization prompt instead has
"User Question" on its second line.  Looking only at this short prefix
keeps the environments cheap to evaluate. -/
def isGenPrompt (p : String) : Bool :=
  p.data.take 6 == ['\n', ' ', ' ', ' ', ' ', '\n']

/-- Environment for the full success path: the synthesis prompt gets SQL
back, every other prompt (the summarization one) gets a short narrative. -/
def envHappy : AgentEnv :=
  { invokeModel := fun p =>
      if isGenPrompt p then .ok "SELECT 1" else .ok "Egypt is the outlier."
    readSqlQuery := fun _ _ => .ok df1 }

/-- Environment where the summarization call succeeds but returns an empty
text body. -/
def envEmptySummary : AgentEnv :=
  { invokeModel := fun p =>
      if isGenPrompt p then .ok "SELECT 1" else .ok ""
    readSqlQuery := fun _ _ => .ok df1 }

/-- Environment where only the summarization call raises. -/
def envSumFail : AgentEnv :=
  { invokeModel := fun p =>
      if isGenPrompt p then .ok "SELECT 1" else .error "rate limited"
    readSqlQuery := fun _ _ => .ok df1 }

/-- Environment where the model call succeeds but returns an empty text
body (for the synthesis phase). -/
def envEmptyText : AgentEnv :=
  { invokeModel := fun _ => .ok ""
    readSqlQuery := fun _ _ => .error "unreachable" }

/-- Environment where the model wraps its SQL in a sql-tagged markdown
fence. -/
def envFence : AgentEnv :=
  { invokeModel := fun _ => .ok "```sql\nSELECT 1\n```"
    readSqlQuery := fun _ _ => .ok df1 }

/-- A list starts with itself followed by anything. -/
theorem startsWithChars_append_self (l r : List Char) :
    startsWithChars l (l ++ r) = true := by
  induction l with
  | nil => rfl
  | cons a as ih => simp [startsWithChars, ih]

/-- Claim C1: whenever one of the three phases (SQL synthesis, query
execution, summarization) fails with message `e`, `ask_data_agent` returns
the uniform failure triple `(none, none, "Error: " ++ e)`; in particular
the message of the underlying failure is preserved verbatim inside the
summary string. -/
theorem ask_data_agent_error_shape (env : AgentEnv) (q e : String)
    (h : generate_sql env q = .error e ∨
      (∃ sql, generate_sql env q = .ok sql ∧
        env.readSqlQuery sql DATABASE = .error e) ∨
      (∃ sql df, generate_sql env q = .ok sql ∧
        env.readSqlQuery sql DATABASE = .ok df ∧ df.empty = false ∧
        explain_results env q df = .error e)) :
    ask_data_agent env q = (none, none, "Error: " ++ e) := by
  rcases h with h1 | ⟨sql, h1, h2⟩ | ⟨sql, df, h1, h2, h3, h4⟩
  · simp [ask_data_agent, h1]
  · simp [ask_data_agent, h1, h2]
  · simp [ask_data_agent, h1, h2, h3, h4]

/-- Witness for C1: with the completion service down, asking returns the
uniform failure triple carrying the underlying message. -/
theorem ask_data_agent_error_shape_witness :
    ask_data_agent envGenFail "q" = (none, none, "Error: model down") :=
  ask_data_agent_error_shape envGenFail "q" "model down" (Or.inl rfl)

/-- Claim C2: when the synthesized query executes successfully and matches
zero rows, `ask_data_agent` returns the synthesized SQL, the (empty) table
and the literal sentinel summary — a success outcome, not a failure. -/
theorem ask_data_agent_empty_result (env : AgentEnv) (q sql : String)
    (df : DataFrame)
    (h1 : generate_sql env q = .ok sql)
    (h2 : env.readSqlQuery sql DATABASE = .ok df)
    (h3 : df.rows = []) :
    ask_data_agent env q = (some sql, some df, "No data found for that query.") := by
  simp [ask_data_agent, h1, h2, DataFrame.empty, h3]

/-- Witness for C2: a concrete zero-row run. -/
theorem ask_data_agent_empty_result_witness :
    ask_data_agent envEmpty "q" =
      (some "SELECT 1", some dfEmpty, "No data found for that query.") :=
  ask_data_agent_empty_result envEmpty "q" "SELECT 1" dfEmpty rfl rfl rfl

/-- Counterexample to C3 as stated: in `envEmptySummary` the model returns
SQL, the engine returns one row, and the summarization call succeeds — but
its text body is empty, so `ask_data_agent` returns an empty summary
string, not a non-empty one. -/
theorem ask_data_agent_empty_summary_cex :
    generate_sql envEmptySummary "q" = .ok "SELECT 1" ∧
    envEmptySummary.readSqlQuery "SELECT 1" DATABASE = .ok df1 ∧
    df1.empty = false ∧
    explain_results envEmptySummary "q" df1 = .ok "" ∧
    ask_data_agent envEmptySummary "q" = (some "SELECT 1", some df1, "") :=
  ⟨rfl, rfl, rfl, rfl, rfl⟩

/-- Claim C3 (amended): when synthesis succeeds, execution returns at least
one row and the summarization call succeeds with text `s`, `ask_data_agent`
returns the non-null SQL, the non-null table and `s` verbatim — so the
summary is non-empty exactly when the summarizer's text is. -/
theorem ask_data_agent_success_returns_summary (env : AgentEnv)
    (q sql s : String) (df : DataFrame)
    (h1 : generate_sql env q = .ok sql)
    (h2 : env.readSqlQuery sql DATABASE = .ok df)
    (h3 : df.rows ≠ [])
    (h4 : explain_results env q df = .ok s) :
    ask_data_agent env q = (some sql, some df, s) ∧
    (s ≠ "" → (ask_data_agent env q).2.2 ≠ "") := by
  have he : df.empty = false := by
    cases hr : df.rows with
    | nil => exact absurd hr h3
    | cons a l => simp [DataFrame.empty, hr]
  have hmain : ask_data_agent env q = (some sql, some df, s) := by
    simp [ask_data_agent, h1, h2, he, h4]
  exact ⟨hmain, fun hs => by rw [hmain]; exact hs⟩

/-- Witness for the amended C3: a concrete full-success run. -/
theorem ask_data_agent_success_returns_summary_witness :
    ask_data_agent envHappy "q" =
      (some "SELECT 1", some df1, "Egypt is the outlier.") ∧
    ("Egypt is the outlier." ≠ "" → (ask_data_agent envHappy "q").2.2 ≠ "") :=
  ask_data_agent_success_returns_summary envHappy "q" "SELECT 1"
    "Egypt is the outlier." df1 rfl rfl (by decide) rfl

/-- Counterexample to C5 as stated: a completion that succeeds but carries
an empty text body does not make `generate_sql` fail — it returns the empty
string as the synthesized SQL. -/
theorem generate_sql_empty_text_cex :
    envEmptyText.invokeModel (sqlPrompt "q") = .ok "" ∧
    generate_sql envEmptyText "q" = .ok "" :=
  ⟨rfl, rfl⟩

/-- Claim C5 (amended): `generate_sql` fails exactly when the completion
call itself fails (including a malformed or missing response body), and it
propagates that failure's message unchanged; a successful completion —
even one whose text body is empty — never yields a failure. -/
theorem generate_sql_error_iff (env : AgentEnv) (q e : String) :
    generate_sql env q = .error e ↔
      env.invokeModel (sqlPrompt q) = .error e := by
  cases h : env.invokeModel (sqlPrompt q) <;> simp [generate_sql, h]

/-- Claim C6: when synthesis and execution both succeed with a non-empty
table but summarization fails, `ask_data_agent` discards the
already-computed SQL and table and returns the uniform failure triple. -/
theorem ask_data_agent_discards_on_summary_failure (env : AgentEnv)
    (q sql e : String) (df : DataFrame)
    (h1 : generate_sql env q = .ok sql)
    (h2 : env.readSqlQuery sql DATABASE = .ok df)
    (h3 : df.empty = false)
    (h4 : explain_results env q df = .error e) :
    ask_data_agent env q = (none, none, "Error: " ++ e) := by
  simp [ask_data_agent, h1, h2, h3, h4]

/-- Witness for C6: a concrete run where only summarization fails. -/
theorem ask_data_agent_discards_on_summary_failure_witness :
    ask_data_agent envSumFail "q" = (none, none, "Error: rate limited") :=
  ask_data_agent_discards_on_summary_failure envSumFail "q" "SELECT 1"
    "rate limited" df1 rfl rfl rfl rfl

/-- Claim C7: on the empty-result path the summarizer is never invoked:
the instrumented orchestrator records zero calls to `explain_results`, and
its result agrees with `ask_data_agent`. -/
theorem ask_data_agent_empty_skips_summarizer (env : AgentEnv)
    (q sql : String) (df : DataFrame)
    (h1 : generate_sql env q = .ok sql)
    (h2 : env.readSqlQuery sql DATABASE = .ok df)
    (h3 : df.rows = []) :
    (askAgentCounted env q).2 = 0 ∧
    (askAgentCounted env q).1 = ask_data_agent env q := by
  simp [askAgentCounted, ask_data_agent, h1, h2, DataFrame.empty, h3]

/-- Witness for C7: the concrete zero-row run performs zero summarizer
calls. -/
theorem ask_data_agent_empty_skips_summarizer_witness :
    (askAgentCounted envEmpty "q").2 = 0 ∧
    (askAgentCounted envEmpty "q").1 = ask_data_agent envEmpty "q" :=
  ask_data_agent_empty_skips_summarizer envEmpty "q" "SELECT 1" dfEmpty
    rfl rfl rfl

/-- Claim C8: the schema context provider is deterministic, takes no input
(beyond the unit call shape), cannot fail (it returns a plain `String`,
not an `Except`), and any two calls return identical text. -/
theorem get_athena_schema_constant (u v : Unit) :
    get_athena_schema u = get_athena_schema v ∧
    get_athena_schema u = get_athena_schema () :=
  ⟨rfl, rfl⟩

/-- Claim C9: `ask_data_agent` never propagates a failure to its caller:
for every behavior of the model and query-engine collaborators it returns
a 3-tuple, which is either the uniform error triple or a fully non-null
success triple. -/
theorem ask_data_agent_total_shape (env : AgentEnv) (q : String) :
    (∃ e, ask_data_agent env q = (none, none, "Error: " ++ e)) ∨
    (∃ sql df s, ask_data_agent env q = (some sql, some df, s)) := by
  cases hg : generate_sql env q with
  | error e => exact Or.inl ⟨e, by simp [ask_data_agent, hg]⟩
  | ok sql =>
    cases hr : env.readSqlQuery sql DATABASE with
    | error e => exact Or.inl ⟨e, by simp [ask_data_agent, hg, hr]⟩
    | ok df =>
      cases hE : df.empty with
      | true =>
        exact Or.inr ⟨sql, df, "No data found for that query.",
          by simp [ask_data_agent, hg, hr, hE]⟩
      | false =>
        cases hs : explain_results env q df with
        | error e =>
          exact Or.inl ⟨e, by simp [ask_data_agent, hg, hr, hE, hs]⟩
        | ok s =>
          exact Or.inr ⟨sql, df, s, by simp [ask_data_agent, hg, hr, hE, hs]⟩

/-- Claim C10: every triple returned by `ask_data_agent` satisfies the
response invariant: the SQL field is null iff the table field is null;
when both are null the summary begins with "Error: "; when the table is
non-null the summary is either the empty-result sentinel or exactly the
summarizer's text. -/
theorem ask_data_agent_response_invariant (env : AgentEnv) (q s : String)
    (sql : Option String) (tbl : Option DataFrame)
    (h : ask_data_agent env q = (sql, tbl, s)) :
    (sql = none ↔ tbl = none) ∧
    (sql = none → startsWithChars "Error: ".data s.data = true) ∧
    (∀ df, tbl = some df →
      s = "No data found for that query." ∨ explain_results env q df = .ok s) := by
  cases hg : generate_sql env q with
  | error e =>
    have hval : ask_data_agent env q = (none, none, "Error: " ++ e) := by
      simp [ask_data_agent, hg]
    rw [hval] at h
    simp only [Prod.mk.injEq] at h
    obtain ⟨h1, h2, h3⟩ := h
    subst h1; subst h2; subst h3
    refine ⟨by simp, fun _ => ?_, by simp⟩
    rw [String.data_append]
    exact startsWithChars_append_self _ _
  | ok sqlText =>
    cases hr : env.readSqlQuery sqlText DATABASE with
    | error e =>
      have hval : ask_data_agent env q = (none, none, "Error: " ++ e) := by
        simp [ask_data_agent, hg, hr]
      rw [hval] at h
      simp only [Prod.mk.injEq] at h
      obtain ⟨h1, h2, h3⟩ := h
      subst h1; subst h2; subst h3
      refine ⟨by simp, fun _ => ?_, by simp⟩
      rw [String.data_append]
      exact startsWithChars_append_self _ _
    | ok df =>
      cases hE : df.empty with
      | true =>
        have hval : ask_data_agent env q =
            (some sqlText, some df, "No data found for that query.") := by
          simp [ask_data_agent, hg, hr, hE]
        rw [hval] at h
        simp only [Prod.mk.injEq] at h
        obtain ⟨h1, h2, h3⟩ := h
        subst h1; subst h2; subst h3
        exact ⟨by simp, by simp, fun df0 hdf => Or.inl rfl⟩
      | false =>
        cases hs : explain_results env q df with
        | error e =>
          have hval : ask_data_agent env q = (none, none, "Error: " ++ e) := by
            simp [ask_data_agent, hg, hr, hE, hs]
          rw [hval] at h
          simp only [Prod.mk.injEq] at h
          obtain ⟨h1, h2, h3⟩ := h
          subst h1; subst h2; subst h3
          refine ⟨by simp, fun _ => ?_, by simp⟩
          rw [String.data_append]
          exact startsWithChars_append_self _ _
        | ok s0 =>
          have hval : ask_data_agent env q = (some sqlText, some df, s0) := by
            simp [ask_data_agent, hg, hr, hE, hs]
          rw [hval] at h
          simp only [Prod.mk.injEq] at h
          obtain ⟨h1, h2, h3⟩ := h
          subst h1; subst h2; subst h3
          refine ⟨by simp, by simp, fun df0 hdf => ?_⟩
          rw [Option.some.injEq] at hdf
          subst hdf
          exact Or.inr hs

/-- Witness for C10: on the concrete failed run, the summary indeed starts
with "Error: ". -/
theorem ask_data_agent_response_invariant_witness :
    startsWithChars "Error: ".data ("Error: model down").data = true :=
  (ask_data_agent_response_invariant envGenFail "q" "Error: model down"
    none none rfl).2.1 rfl

theorem tag_data : "```sql".data = tagChars := by decide

theorem fence_data : "```".data = fenceChars := by decide

theorem replaceFuel_fuel_irrel (old new : List Char) :
    ∀ (f f2 : Nat) (l : List Char), l.length ≤ f → l.length ≤ f2 →
      replaceFuel old new f l = replaceFuel old new f2 l := by
  intro f
  induction f with
  | zero =>
    intro f2 l h1 _
    have : l = [] := List.eq_nil_of_length_eq_zero (Nat.le_zero.mp h1)
    subst this
    cases f2 <;> rfl
  | succ f ih =>
    intro f2 l h1 h2
    cases l with
    | nil => cases f2 <;> rfl
    | cons c cs =>
      cases f2 with
      | zero => exact absurd h2 (by simp)
      | succ f2 =>
        simp only [replaceFuel]
        by_cases hc : startsWithChars old (c :: cs) = true ∧ old ≠ []
        · rw [if_pos hc, if_pos hc]
          have hlen : (cs.drop (old.length - 1)).length ≤ f := by
            have := List.length_drop (old.length - 1) cs
            have h1' : cs.length ≤ f := by simpa using h1
            omega
          have hlen2 : (cs.drop (old.length - 1)).length ≤ f2 := by
            have := List.length_drop (old.length - 1) cs
            have h2' : cs.length ≤ f2 := by simpa using h2
            omega
          rw [ih f2 _ hlen hlen2]
        · rw [if_neg hc, if_neg hc]
          have h1' : cs.length ≤ f := by simpa using h1
          have h2' : cs.length ≤ f2 := by simpa using h2
          rw [ih f2 cs h1' h2']

theorem replaceList_cons_nomatch (old new : List Char) (c : Char) (cs : List Char)
    (h : startsWithChars old (c :: cs) = false) :
    replaceList old new (c :: cs) = c :: replaceList old new cs := by
  show replaceFuel old new (c :: cs).length (c :: cs) = _
  simp only [List.length_cons, replaceFuel]
  rw [if_neg (by simp [h])]
  rfl

theorem replaceList_cons_match (old new : List Char) (c : Char) (cs : List Char)
    (h : startsWithChars old (c :: cs) = true) (hne : old ≠ []) :
    replaceList old new (c :: cs) = new ++ replaceList old new (cs.drop (old.length - 1)) := by
  show replaceFuel old new (c :: cs).length (c :: cs) = _
  simp only [List.length_cons, replaceFuel]
  rw [if_pos ⟨h, hne⟩]
  congr 1
  apply replaceFuel_fuel_irrel
  · have := List.length_drop (old.length - 1) cs
    omega
  · exact Nat.le_refl _

theorem startsWithChars_head_ne (a b : Char) (as bs : List Char) (h : a ≠ b) :
    startsWithChars (a :: as) (b :: bs) = false := by
  simp [startsWithChars, beq_iff_eq, h]

theorem replaceList_skip_head (old new : List Char) (h0 : Char) (t : List Char)
    (ho : old = h0 :: t) (m tail : List Char) (hm : h0 ∉ m)
    (htail : replaceList old new tail = tail) :
    replaceList old new (m ++ tail) = m ++ tail := by
  induction m with
  | nil => simpa using htail
  | cons c cm ih =>
    have hne : h0 ≠ c := fun heq => hm (heq ▸ List.mem_cons_self c cm)
    have hstep : startsWithChars old (c :: (cm ++ tail)) = false := by
      rw [ho]; exact startsWithChars_head_ne h0 c t (cm ++ tail) hne
    rw [List.cons_append, replaceList_cons_nomatch old new c (cm ++ tail) hstep,
      ih (fun hmem => hm (List.mem_cons_of_mem c hmem))]

theorem replaceList_fence_cancel (m : List Char) (hm : btChar ∉ m) :
    replaceList fenceChars [] (m ++ fenceChars) = m := by
  induction m with
  | nil => decide
  | cons c cm ih =>
    have hne : btChar ≠ c := fun heq => hm (heq ▸ List.mem_cons_self c cm)
    have hstep : startsWithChars fenceChars (c :: (cm ++ fenceChars)) = false :=
      startsWithChars_head_ne btChar c [btChar, btChar] (cm ++ fenceChars) hne
    rw [List.cons_append, replaceList_cons_nomatch _ _ _ _ hstep,
      ih (fun hmem => hm (List.mem_cons_of_mem c hmem))]

theorem sql_not_starts (m : List Char)
    (hs : startsWithChars ['s', 'q', 'l'] m = false) :
    startsWithChars ['s', 'q', 'l'] (m ++ fenceChars) = false := by
  match m with
  | [] => decide
  | [c1] =>
    have hinner : startsWithChars ['q', 'l'] fenceChars = false := by decide
    calc startsWithChars ['s', 'q', 'l'] ([c1] ++ fenceChars)
        = ('s' == c1 && startsWithChars ['q', 'l'] fenceChars) := rfl
      _ = ('s' == c1 && false) := by rw [hinner]
      _ = false := Bool.and_false _
  | [c1, c2] =>
    have hinner : startsWithChars ['l'] fenceChars = false := by decide
    calc startsWithChars ['s', 'q', 'l'] ([c1, c2] ++ fenceChars)
        = ('s' == c1 && ('q' == c2 && startsWithChars ['l'] fenceChars)) := rfl
      _ = ('s' == c1 && ('q' == c2 && false)) := by rw [hinner]
      _ = false := by simp
  | c1 :: c2 :: c3 :: m3 => exact hs

theorem btsql_not_starts (m : List Char) (hm : btChar ∉ m) :
    startsWithChars (btChar :: ['s', 'q', 'l']) (m ++ fenceChars) = false := by
  cases m with
  | nil => decide
  | cons c cm =>
    have hne : btChar ≠ c := fun heq => hm (heq ▸ List.mem_cons_self c cm)
    exact startsWithChars_head_ne btChar c _ _ hne

theorem btbtsql_not_starts (m : List Char) (hm : btChar ∉ m) :
    startsWithChars (btChar :: btChar :: ['s', 'q', 'l']) (m ++ fenceChars) = false := by
  cases m with
  | nil => decide
  | cons c cm =>
    have hne : btChar ≠ c := fun heq => hm (heq ▸ List.mem_cons_self c cm)
    exact startsWithChars_head_ne btChar c _ _ hne

theorem replace_tag_tagged (m : List Char) (hm : btChar ∉ m) :
    replaceList tagChars [] (tagChars ++ m ++ fenceChars) = m ++ fenceChars := by
  have he : tagChars ++ m ++ fenceChars =
      btChar :: ([btChar, btChar, 's', 'q', 'l'] ++ (m ++ fenceChars)) := by
    simp [tagChars]
  rw [he, replaceList_cons_match _ _ _ _
    (by rw [show btChar :: ([btChar, btChar, 's', 'q', 'l'] ++ (m ++ fenceChars)) =
          tagChars ++ (m ++ fenceChars) by simp [tagChars]]
        exact startsWithChars_append_self _ _)
    (by simp [tagChars])]
  have hdrop : ([btChar, btChar, 's', 'q', 'l'] ++ (m ++ fenceChars)).drop
      (tagChars.length - 1) = m ++ fenceChars := by
    simp [tagChars]
  rw [hdrop]
  simp only [List.nil_append]
  exact replaceList_skip_head tagChars [] btChar [btChar, btChar, 's', 'q', 'l'] rfl
    m fenceChars hm (by decide)

theorem replace_tag_bare (m : List Char) (hm : btChar ∉ m)
    (hs : startsWithChars ['s', 'q', 'l'] m = false) :
    replaceList tagChars [] (fenceChars ++ m ++ fenceChars) =
      fenceChars ++ m ++ fenceChars := by
  have he : fenceChars ++ m ++ fenceChars =
      btChar :: btChar :: btChar :: (m ++ fenceChars) := by simp [fenceChars]
  rw [he]
  have h0 : startsWithChars tagChars (btChar :: btChar :: btChar :: (m ++ fenceChars)) = false := by
    show (btChar == btChar &&
      (btChar == btChar && (btChar == btChar &&
        startsWithChars ['s', 'q', 'l'] (m ++ fenceChars)))) = false
    rw [sql_not_starts m hs]
    simp
  rw [replaceList_cons_nomatch _ _ _ _ h0]
  have h1 : startsWithChars tagChars (btChar :: btChar :: (m ++ fenceChars)) = false := by
    show (btChar == btChar &&
      (btChar == btChar &&
        startsWithChars (btChar :: ['s', 'q', 'l']) (m ++ fenceChars))) = false
    rw [btsql_not_starts m hm]
    simp
  rw [replaceList_cons_nomatch _ _ _ _ h1]
  have h2 : startsWithChars tagChars (btChar :: (m ++ fenceChars)) = false := by
    show (btChar == btChar &&
      startsWithChars (btChar :: btChar :: ['s', 'q', 'l']) (m ++ fenceChars)) = false
    rw [btbtsql_not_starts m hm]
    simp
  rw [replaceList_cons_nomatch _ _ _ _ h2]
  rw [replaceList_skip_head tagChars [] btChar [btChar, btChar, 's', 'q', 'l'] rfl
    m fenceChars hm (by decide)]

theorem replace_fence_bare (m : List Char) (hm : btChar ∉ m) :
    replaceList fenceChars [] (fenceChars ++ m ++ fenceChars) = m := by
  have he : fenceChars ++ m ++ fenceChars =
      btChar :: ([btChar, btChar] ++ (m ++ fenceChars)) := by simp [fenceChars]
  rw [he]
  rw [replaceList_cons_match _ _ _ _
    (by rw [show btChar :: ([btChar, btChar] ++ (m ++ fenceChars)) =
          fenceChars ++ (m ++ fenceChars) by simp [fenceChars]]
        exact startsWithChars_append_self _ _)
    (by simp [fenceChars])]
  have hdrop : ([btChar, btChar] ++ (m ++ fenceChars)).drop (fenceChars.length - 1) =
      m ++ fenceChars := by simp [fenceChars]
  rw [hdrop]
  simp only [List.nil_append]
  exact replaceList_fence_cancel m hm

theorem dropWhile_eq_self_of_head (p : Char → Bool) (l : List Char)
    (h : ∀ c, l.head? = some c → p c = false) : l.dropWhile p = l := by
  cases l with
  | nil => rfl
  | cons c cs =>
    rw [List.dropWhile_cons, h c rfl]
    simp

theorem head?_dropWhile (p : Char → Bool) (l : List Char) (c : Char)
    (h : (l.dropWhile p).head? = some c) : p c = false := by
  induction l with
  | nil => simp at h
  | cons a as ih =>
    rw [List.dropWhile_cons] at h
    by_cases hpa : p a = true
    · rw [if_pos hpa] at h
      exact ih h
    · rw [if_neg hpa] at h
      simp only [List.head?_cons, Option.some.injEq] at h
      subst h
      simp only [Bool.not_eq_true] at hpa
      exact hpa

theorem dropWhile_idem (p : Char → Bool) (l : List Char) :
    (l.dropWhile p).dropWhile p = l.dropWhile p := by
  induction l with
  | nil => rfl
  | cons c cs ih =>
    by_cases hpc : p c = true
    · rw [List.dropWhile_cons, if_pos hpc]
      exact ih
    · rw [List.dropWhile_cons, if_neg hpc, List.dropWhile_cons, if_neg hpc]

theorem stripChars_of_ends (l : List Char)
    (h1 : ∀ c, l.head? = some c → c.isWhitespace = false)
    (h2 : ∀ c, l.getLast? = some c → c.isWhitespace = false) :
    stripChars l = l := by
  unfold stripChars
  rw [dropWhile_eq_self_of_head _ _ h1]
  rw [dropWhile_eq_self_of_head _ _
    (fun c hc => h2 c (by rwa [List.head?_reverse] at hc))]
  exact List.reverse_reverse l

theorem getLast_append_fence (X : List Char) :
    (X ++ fenceChars).getLast? = some btChar := by
  rw [show fenceChars = [btChar, btChar] ++ [btChar] from rfl, ← List.append_assoc]
  exact List.getLast?_concat _

theorem mem_stripChars (c : Char) (l : List Char) (h : c ∈ stripChars l) : c ∈ l := by
  unfold stripChars at h
  rw [List.mem_reverse] at h
  have h2 := (List.dropWhile_sublist _).subset h
  rw [List.mem_reverse] at h2
  exact (List.dropWhile_sublist _).subset h2

theorem stripChars_dropWhile (l : List Char) :
    (stripChars l).dropWhile Char.isWhitespace = stripChars l := by
  apply dropWhile_eq_self_of_head
  intro c hc
  unfold stripChars at hc
  rw [List.head?_reverse] at hc
  have hZne : (l.dropWhile Char.isWhitespace).reverse.dropWhile Char.isWhitespace ≠ [] := by
    intro h0
    rw [h0] at hc
    simp at hc
  obtain ⟨t, ht⟩ :=
    List.dropWhile_suffix (l := (l.dropWhile Char.isWhitespace).reverse)
      (p := Char.isWhitespace)
  have hY : (l.dropWhile Char.isWhitespace).reverse.getLast? = some c := by
    rw [← ht, List.getLast?_append_of_ne_nil t hZne]
    exact hc
  rw [List.getLast?_reverse] at hY
  exact head?_dropWhile _ _ _ hY

theorem stripChars_reverse_dropWhile (l : List Char) :
    (stripChars l).reverse.dropWhile Char.isWhitespace = (stripChars l).reverse := by
  unfold stripChars
  rw [List.reverse_reverse]
  exact dropWhile_idem _ _

theorem sanitize_data (text : String) :
    (sanitize text).data =
      stripChars (replaceList fenceChars []
        (replaceList tagChars [] (stripChars text.data))) := rfl

/-- Claim C4: for a model response wrapped in a markdown code fence —
either the sql-tagged variant or a bare fence — whose inner text is free of
fence-marker characters (and, for the bare variant, does not itself start
with the letters "sql", in which case the text is read as the tagged
variant), `generate_sql` returns exactly the inner text stripped of
surrounding whitespace; the result contains no fence markers and has no
leading or trailing whitespace. -/
theorem generate_sql_fence_strip (env : AgentEnv) (q inner : String)
    (hb : btChar ∉ inner.data) :
    (env.invokeModel (sqlPrompt q) = .ok ("```sql" ++ inner ++ "```") →
      generate_sql env q = .ok (pyStrip inner)) ∧
    (startsWithChars ['s', 'q', 'l'] inner.data = false →
      env.invokeModel (sqlPrompt q) = .ok ("```" ++ inner ++ "```") →
      generate_sql env q = .ok (pyStrip inner)) ∧
    btChar ∉ (pyStrip inner).data ∧
    (pyStrip inner).data.dropWhile Char.isWhitespace = (pyStrip inner).data ∧
    (pyStrip inner).data.reverse.dropWhile Char.isWhitespace =
      (pyStrip inner).data.reverse := by
  refine ⟨fun hm => ?_, fun hsql hm => ?_,
    fun hmem => hb (mem_stripChars btChar inner.data hmem),
    stripChars_dropWhile inner.data, stripChars_reverse_dropWhile inner.data⟩
  · have htext : ("```sql" ++ inner ++ "```").data =
        tagChars ++ inner.data ++ fenceChars := by
      rw [String.data_append, String.data_append, tag_data, fence_data]
    simp only [generate_sql, hm, Except.ok.injEq]
    apply String.ext
    rw [sanitize_data, htext]
    have hends : stripChars (tagChars ++ inner.data ++ fenceChars) =
        tagChars ++ inner.data ++ fenceChars := by
      apply stripChars_of_ends
      · intro c hc
        rw [show (tagChars ++ inner.data ++ fenceChars).head? = some btChar from rfl] at hc
        injection hc with h
        rw [← h]
        decide
      · intro c hc
        rw [getLast_append_fence] at hc
        injection hc with h
        rw [← h]
        decide
    rw [hends, replace_tag_tagged inner.data hb,
      replaceList_fence_cancel inner.data hb]
    rfl
  · have htext : ("```" ++ inner ++ "```").data =
        fenceChars ++ inner.data ++ fenceChars := by
      rw [String.data_append, String.data_append, fence_data]
    simp only [generate_sql, hm, Except.ok.injEq]
    apply String.ext
    rw [sanitize_data, htext]
    have hends : stripChars (fenceChars ++ inner.data ++ fenceChars) =
        fenceChars ++ inner.data ++ fenceChars := by
      apply stripChars_of_ends
      · intro c hc
        rw [show (fenceChars ++ inner.data ++ fenceChars).head? = some btChar from rfl] at hc
        injection hc with h
        rw [← h]
        decide
      · intro c hc
        rw [getLast_append_fence] at hc
        injection hc with h
        rw [← h]
        decide
    rw [hends, replace_tag_bare inner.data hb hsql,
      replace_fence_bare inner.data hb]
    rfl

/-- Witness for C4: the concrete sql-tagged fenced response is cleaned to
its inner SQL with whitespace stripped. -/
theorem generate_sql_fence_strip_witness :
    generate_sql envFence "q" = .ok (pyStrip "\nSELECT 1\n") ∧
    pyStrip "\nSELECT 1\n" = "SELECT 1" :=
  ⟨(generate_sql_fence_strip envFence "q" "\nSELECT 1\n" (by decide)).1 rfl, rfl⟩
